import Mathlib

/-!
# Verification of the Eagles analytics pipeline

A shallow embedding of `src/analytics.py`, together with proofs of the
specified properties of its three pipeline stages:

* `read_game_stats` — the reader, which turns the field mappings produced by
  the CSV layer into typed game records, aborting on the first bad row;
* `calculate_analytics` — the aggregator, a pure function from a list of game
  records to the nested season-summary structure (the empty dict that Python
  returns for empty input is modelled as `none`);
* `run_analytics` — the orchestrator, which reads every matched file in
  listing order, concatenates the records, aggregates once and writes once.

Python integers are embedded as `Int` (they are unbounded); true division and
`round` are carried out over `ℚ` with round-half-to-even tie-breaking (the
behaviour of Python's `round` builtin on exact values; binary floating point
representation error is below the granularity of this model).

Input rows appear at two levels of detail.  The ordering and orchestration
theorems use a mapping-level abstraction (`RawRow`): a row as the mapping
from column names to the text of the fields it supplies.  The reader's
acceptance and abort behaviour is settled at the CSV cell level
(`dictReaderRow` over a row's list of cells), which reproduces
`csv.DictReader` faithfully: every header fieldname is always a key of the
row dict, and cells a short data row does not supply are filled with Python
`None` — so a row missing only the trailing `result` cell is accepted with
`result = None`, while an unsupplied integer cell aborts via `int(None)`.
-/

/-- Round-half-to-even on an exact rational, the tie-breaking rule of
Python's `round` builtin. -/
def roundHalfEven (x : ℚ) : ℤ :=
  let f : ℤ := Int.floor x
  let frac : ℚ := x - f
  if frac < 1/2 then f
  else if frac > 1/2 then f + 1
  else if f % 2 = 0 then f else f + 1

/-- Models Python `round(x, n)` for `n` decimal places, over exact rationals. -/
def pyRound (x : ℚ) (n : Nat) : ℚ :=
  (roundHalfEven (x * 10 ^ n) : ℚ) / 10 ^ n

/-- One game record, as built by `read_game_stats` (analytics.py lines 28-39):
six integer fields coerced with `int(...)`, four text fields passed through
raw. -/
structure GameRecord where
  game_id : Int
  date : String
  opponent : String
  home_away : String
  points_scored : Int
  points_allowed : Int
  rushing_yards : Int
  passing_yards : Int
  turnovers : Int
  result : String
  deriving DecidableEq

/-- The `"summary"` sub-dictionary of the analytics output. -/
structure SummaryStats where
  total_games : Nat
  wins : Nat
  losses : Nat
  win_percentage : ℚ
  deriving DecidableEq

/-- The `"scoring"` sub-dictionary of the analytics output. -/
structure ScoringStats where
  total_points_scored : Int
  total_points_allowed : Int
  avg_points_scored : ℚ
  avg_points_allowed : ℚ
  point_differential : Int
  deriving DecidableEq

/-- The `"offense"` sub-dictionary of the analytics output. -/
structure OffenseStats where
  total_rushing_yards : Int
  total_passing_yards : Int
  total_yards : Int
  avg_rushing_yards : ℚ
  avg_passing_yards : ℚ
  avg_total_yards : ℚ
  deriving DecidableEq

/-- The `"turnovers"` sub-dictionary of the analytics output. -/
structure TurnoverStats where
  total_turnovers : Int
  avg_turnovers_per_game : ℚ
  deriving DecidableEq

/-- The `"home_away"` sub-dictionary of the analytics output: the two record
strings rendered as `"{wins}-{losses}"`. -/
structure HomeAwayStats where
  home_record : String
  away_record : String
  deriving DecidableEq

/-- The full nested analytics dictionary built by `calculate_analytics` for a
non-empty input (analytics.py lines 73-103). -/
structure Analytics where
  summary : SummaryStats
  scoring : ScoringStats
  offense : OffenseStats
  turnovers : TurnoverStats
  home_away : HomeAwayStats
  deriving DecidableEq

/-- Embedding of `calculate_analytics` (analytics.py lines 44-105).  The empty
dict returned for empty input is modelled as `none`; a populated dict as
`some` of the `Analytics` structure.  Each `let` mirrors the corresponding
local of the Python function; `sum(1 for g in ... if g["result"] == "W")` is
the length of the filtered list. -/
def calculate_analytics (games : List GameRecord) : Option Analytics :=
  if games.isEmpty then none
  else
    let total_games : Nat := games.length
    let wins : Nat := (games.filter (fun g => g.result == "W")).length
    let losses : Nat := total_games - wins
    let total_points_scored : Int := (games.map (fun g => g.points_scored)).sum
    let total_points_allowed : Int := (games.map (fun g => g.points_allowed)).sum
    let total_rushing_yards : Int := (games.map (fun g => g.rushing_yards)).sum
    let total_passing_yards : Int := (games.map (fun g => g.passing_yards)).sum
    let total_turnovers : Int := (games.map (fun g => g.turnovers)).sum
    let home_games := games.filter (fun g => g.home_away == "home")
    let away_games := games.filter (fun g => g.home_away == "away")
    let home_wins : Nat := (home_games.filter (fun g => g.result == "W")).length
    let away_wins : Nat := (away_games.filter (fun g => g.result == "W")).length
    some
      { summary :=
          { total_games := total_games
            wins := wins
            losses := losses
            win_percentage :=
              if total_games > 0 then pyRound ((wins : ℚ) / (total_games : ℚ) * 100) 1
              else 0 }
        scoring :=
          { total_points_scored := total_points_scored
            total_points_allowed := total_points_allowed
            avg_points_scored := pyRound ((total_points_scored : ℚ) / (total_games : ℚ)) 1
            avg_points_allowed := pyRound ((total_points_allowed : ℚ) / (total_games : ℚ)) 1
            point_differential := total_points_scored - total_points_allowed }
        offense :=
          { total_rushing_yards := total_rushing_yards
            total_passing_yards := total_passing_yards
            total_yards := total_rushing_yards + total_passing_yards
            avg_rushing_yards := pyRound ((total_rushing_yards : ℚ) / (total_games : ℚ)) 1
            avg_passing_yards := pyRound ((total_passing_yards : ℚ) / (total_games : ℚ)) 1
            avg_total_yards :=
              pyRound (((total_rushing_yards + total_passing_yards : Int) : ℚ) / (total_games : ℚ)) 1 }
        turnovers :=
          { total_turnovers := total_turnovers
            avg_turnovers_per_game := pyRound ((total_turnovers : ℚ) / (total_games : ℚ)) 2 }
        home_away :=
          { home_record :=
              toString home_wins ++ "-" ++ toString (home_games.length - home_wins)
            away_record :=
              toString away_wins ++ "-" ++ toString (away_games.length - away_wins) } }

/-- One CSV data row abstracted as the mapping from column names to the raw
text of the fields it supplies.  This coarse view underlies the ordering and
orchestration theorems; it is not the place where missing fields live —
`csv.DictReader` keeps every header fieldname present and fills unsupplied
trailing cells with Python `None`, which the faithful cell-level model
(`dictReaderRow` and `RowPy` below) captures. -/
abbrev RawRow : Type := List (String × String)

/-- The data rows of one CSV input file, in file order. -/
abbrev RawFile : Type := List RawRow

/-- The accumulated digits of a decimal numeral. -/
def digitsToNat (cs : List Char) : Nat :=
  cs.foldl (fun a c => a * 10 + (c.toNat - Char.toNat '0')) 0

/-- An ASCII character (code point at most 127). -/
def isAsciiChar (c : Char) : Bool :=
  c.toNat ≤ 127

/-- The ASCII whitespace Python's `int()` strips from its argument:
space, tab, carriage return, line feed, vertical tab and form feed. -/
def isPySpace (c : Char) : Bool :=
  c.isWhitespace || c = '\x0b' || c = '\x0c'

/-- Strip leading and trailing Python whitespace from a character list. -/
def stripWs (cs : List Char) : List Char :=
  ((cs.dropWhile isPySpace).reverse.dropWhile isPySpace).reverse

/-- Continuation of `digitsWithUnderscores`: digits with single underscores
allowed between digits (never leading, trailing or doubled). -/
def digitsWithUnderscoresAux : List Char → Bool
  | [] => true
  | '_' :: rest =>
    match rest with
    | d :: rest2 => d.isDigit && digitsWithUnderscoresAux rest2
    | [] => false
  | d :: rest => d.isDigit && digitsWithUnderscoresAux rest

/-- One or more ASCII digits with single underscores allowed between digits:
the digit grammar Python's `int()` accepts (e.g. `1_000`, but not `_1`,
`1_` or `1__0`). -/
def digitsWithUnderscores : List Char → Bool
  | [] => false
  | c :: rest => c.isDigit && digitsWithUnderscoresAux rest

/-- Models Python's `int(s)` on an ASCII decimal string: optional
surrounding whitespace, an optional sign, then ASCII digits with single
underscore separators; `none` models the `ValueError` raised for anything
else.  Non-ASCII digits and whitespace, which Python also accepts, are
outside the model, which is why the reader-abort theorem below restricts
the offending value to ASCII. -/
def pyInt? (s : String) : Option Int :=
  match stripWs s.data with
  | [] => none
  | c :: rest =>
    if c = '-' then
      if digitsWithUnderscores rest then
        some (-(digitsToNat (rest.filter (fun c => c != '_')) : Int))
      else none
    else if c = '+' then
      if digitsWithUnderscores rest then
        some (digitsToNat (rest.filter (fun c => c != '_')))
      else none
    else
      if digitsWithUnderscores (c :: rest) then
        some (digitsToNat ((c :: rest).filter (fun c => c != '_')))
      else none

/-- The uncaught exceptions that can escape the reader and abort the run:
Python's `KeyError` for a field name absent from the row dict, its
`ValueError` for a non-integer string in an integer field, and its
`TypeError` for `int(None)` when the CSV layer has filled an unsupplied
integer cell with `None`. -/
inductive ParseError where
  | missingField (name : String)
  | badInt (name : String) (value : String)
  | intOfNone (name : String)
  deriving DecidableEq

/-- Dictionary access `row[name]`, raising (`.error`) when the key is
absent. -/
def getField (row : RawRow) (name : String) : Except ParseError String :=
  match List.lookup name row with
  | some v => Except.ok v
  | none => Except.error (ParseError.missingField name)

/-- Dictionary access followed by integer coercion, `int(row[name])`, raising
when the key is absent or the value is not an integer numeral. -/
def getIntField (row : RawRow) (name : String) : Except ParseError Int :=
  match List.lookup name row with
  | some v =>
    match pyInt? v with
    | some n => Except.ok n
    | none => Except.error (ParseError.badInt name v)
  | none => Except.error (ParseError.missingField name)

/-- Building one game record from one row (the dict literal of analytics.py
lines 28-39), with the fields evaluated in the literal's order and the first
failure aborting. -/
def parseRow (row : RawRow) : Except ParseError GameRecord :=
  match getIntField row "game_id" with
  | Except.error e => Except.error e
  | Except.ok gid =>
  match getField row "date" with
  | Except.error e => Except.error e
  | Except.ok date =>
  match getField row "opponent" with
  | Except.error e => Except.error e
  | Except.ok opp =>
  match getField row "home_away" with
  | Except.error e => Except.error e
  | Except.ok ha =>
  match getIntField row "points_scored" with
  | Except.error e => Except.error e
  | Except.ok ps =>
  match getIntField row "points_allowed" with
  | Except.error e => Except.error e
  | Except.ok pa =>
  match getIntField row "rushing_yards" with
  | Except.error e => Except.error e
  | Except.ok ry =>
  match getIntField row "passing_yards" with
  | Except.error e => Except.error e
  | Except.ok py =>
  match getIntField row "turnovers" with
  | Except.error e => Except.error e
  | Except.ok tu =>
  match getField row "result" with
  | Except.error e => Except.error e
  | Except.ok res =>
    Except.ok
      { game_id := gid, date := date, opponent := opp, home_away := ha
        points_scored := ps, points_allowed := pa, rushing_yards := ry
        passing_yards := py, turnovers := tu, result := res }

/-- Embedding of `read_game_stats` (analytics.py lines 14-41): parse the data
rows in file order, appending each record; the first failing row aborts the
whole read with its error, so no partial record list is ever returned. -/
def read_game_stats (rows : RawFile) : Except ParseError (List GameRecord) :=
  match rows with
  | [] => Except.ok []
  | r :: rs =>
    match parseRow r with
    | Except.error e => Except.error e
    | Except.ok g =>
      match read_game_stats rs with
      | Except.error e => Except.error e
      | Except.ok gs => Except.ok (g :: gs)

/-- The `all_games` accumulation loop of `run_analytics` (analytics.py lines
144-147): read each matched file in listing order and concatenate the record
lists, aborting on the first read error. -/
def readAll (files : List RawFile) : Except ParseError (List GameRecord) :=
  match files with
  | [] => Except.ok []
  | f :: fs =>
    match read_game_stats f with
    | Except.error e => Except.error e
    | Except.ok gs =>
      match readAll fs with
      | Except.error e => Except.error e
      | Except.ok rest => Except.ok (gs ++ rest)

/-- The observable outcome of a completed `run_analytics` call: the returned
dictionary (`none` models the empty dict `{}`) and the write to the fixed
output path — `written = none` models "no output file produced",
`written = some a` models `write_analytics` called with content `a`. -/
structure RunOutcome where
  returned : Option Analytics
  written : Option (Option Analytics)
  deriving DecidableEq

/-- Embedding of `run_analytics` (analytics.py lines 121-156) over the data
rows of the matched CSV files in listing order (`files = []` models the
"no CSV files found" early return, which writes nothing).  A `ParseError`
propagates out of the read loop before `write_analytics` is reached, so an
`.error` outcome writes nothing; on success the aggregate is both written and
returned. -/
def run_analytics (files : List RawFile) : Except ParseError RunOutcome :=
  if files.isEmpty then Except.ok { returned := none, written := none }
  else
    match readAll files with
    | Except.error e => Except.error e
    | Except.ok all_games =>
      let analytics := calculate_analytics all_games
      Except.ok { returned := analytics, written := some analytics }

/-- The ten column names of the input schema, in the order the reader's dict
literal consumes them. -/
def requiredFields : List String :=
  ["game_id", "date", "opponent", "home_away", "points_scored",
   "points_allowed", "rushing_yards", "passing_yards", "turnovers", "result"]

/-- The six columns coerced with `int(...)` by the reader. -/
def intFields : List String :=
  ["game_id", "points_scored", "points_allowed", "rushing_yards",
   "passing_yards", "turnovers"]

/-- A sample home win, used to instantiate the universally quantified
theorems below at a concrete input. -/
def sampleWin : GameRecord :=
  { game_id := 1, date := "2024-09-06", opponent := "Packers", home_away := "home"
    points_scored := 34, points_allowed := 29, rushing_yards := 144
    passing_yards := 278, turnovers := 1, result := "W" }

/-- A sample road loss. -/
def sampleLoss : GameRecord :=
  { game_id := 2, date := "2024-09-16", opponent := "Falcons", home_away := "away"
    points_scored := 21, points_allowed := 22, rushing_yards := 98
    passing_yards := 183, turnovers := 2, result := "L" }

/-- A sample home loss. -/
def sampleHomeLoss : GameRecord :=
  { game_id := 3, date := "2024-09-22", opponent := "Commanders", home_away := "home"
    points_scored := 17, points_allowed := 24, rushing_yards := 112
    passing_yards := 167, turnovers := 3, result := "L" }

/-- A sample row carrying all ten required fields with parseable integers. -/
def sampleRow : RawRow :=
  [("game_id", "1"), ("date", "2024-09-06"), ("opponent", "Packers"),
   ("home_away", "home"), ("points_scored", "34"), ("points_allowed", "29"),
   ("rushing_yards", "144"), ("passing_yards", "278"), ("turnovers", "1"),
   ("result", "W")]

/-- A Python CSV cell value handed to the reader by `csv.DictReader`: either
the raw text of a supplied cell, or `none` for Python `None`, which the CSV
layer substitutes for cells a short data row does not supply. -/
abbrev PyCell : Type := Option String

/-- The row dict `csv.DictReader` yields: every header fieldname is a key,
mapped to the supplied cell text or to `None`. -/
abbrev RowPy : Type := List (String × PyCell)

/-- The dict `csv.DictReader` yields for one non-blank data row under the
fixed ten-column header: each fieldname paired with the corresponding cell,
missing trailing cells filled with `None` (the default `restval`); cells
beyond the tenth go to the restkey entry, which the reader never consults,
so the zip's truncation drops them faithfully. -/
def dictReaderRow (cells : List String) : RowPy :=
  requiredFields.zip
    (cells.map some ++ List.replicate (requiredFields.length - cells.length) none)

/-- One game record as the reader's dict literal builds it from a
`csv.DictReader` row: the six integer fields coerced with `int(...)`, the
four text fields passed through raw — which lets a `None` filled in for an
unsupplied trailing cell flow into the record. -/
structure GameRecordPy where
  game_id : Int
  date : PyCell
  opponent : PyCell
  home_away : PyCell
  points_scored : Int
  points_allowed : Int
  rushing_yards : Int
  passing_yards : Int
  turnovers : Int
  result : PyCell
  deriving DecidableEq

/-- Dictionary access `row[name]` on a `csv.DictReader` row: the value may
be Python `None`; `KeyError` only if the header lacks the column. -/
def getFieldPy (row : RowPy) (name : String) : Except ParseError PyCell :=
  match List.lookup name row with
  | some v => Except.ok v
  | none => Except.error (ParseError.missingField name)

/-- Integer coercion `int(row[name])` on a `csv.DictReader` row:
`ValueError` for a non-integer string, `TypeError` for `int(None)` when the
cell was not supplied. -/
def getIntFieldPy (row : RowPy) (name : String) : Except ParseError Int :=
  match List.lookup name row with
  | some (some v) =>
    match pyInt? v with
    | some n => Except.ok n
    | none => Except.error (ParseError.badInt name v)
  | some none => Except.error (ParseError.intOfNone name)
  | none => Except.error (ParseError.missingField name)

/-- Building one game record from one `csv.DictReader` row (the dict literal
of analytics.py lines 28-39), fields evaluated in the literal's order, the
first raising field aborting. -/
def parseRowPy (row : RowPy) : Except ParseError GameRecordPy :=
  match getIntFieldPy row "game_id" with
  | Except.error e => Except.error e
  | Except.ok gid =>
  match getFieldPy row "date" with
  | Except.error e => Except.error e
  | Except.ok date =>
  match getFieldPy row "opponent" with
  | Except.error e => Except.error e
  | Except.ok opp =>
  match getFieldPy row "home_away" with
  | Except.error e => Except.error e
  | Except.ok ha =>
  match getIntFieldPy row "points_scored" with
  | Except.error e => Except.error e
  | Except.ok ps =>
  match getIntFieldPy row "points_allowed" with
  | Except.error e => Except.error e
  | Except.ok pa =>
  match getIntFieldPy row "rushing_yards" with
  | Except.error e => Except.error e
  | Except.ok ry =>
  match getIntFieldPy row "passing_yards" with
  | Except.error e => Except.error e
  | Except.ok py =>
  match getIntFieldPy row "turnovers" with
  | Except.error e => Except.error e
  | Except.ok tu =>
  match getFieldPy row "result" with
  | Except.error e => Except.error e
  | Except.ok res =>
    Except.ok
      { game_id := gid, date := date, opponent := opp, home_away := ha
        points_scored := ps, points_allowed := pa, rushing_yards := ry
        passing_yards := py, turnovers := tu, result := res }

/-- `read_game_stats` (analytics.py lines 14-41) at the CSV cell level: the
input is the sequence of non-blank data rows as cell lists (`csv.DictReader`
skips fully blank rows before they reach the loop), each row is turned into
its `DictReader` dict and parsed in file order, and the first uncaught
exception aborts the whole read. -/
def read_game_stats_py (rows : List (List String)) :
    Except ParseError (List GameRecordPy) :=
  match rows with
  | [] => Except.ok []
  | r :: rs =>
    match parseRowPy (dictReaderRow r) with
    | Except.error e => Except.error e
    | Except.ok g =>
      match read_game_stats_py rs with
      | Except.error e => Except.error e
      | Except.ok gs => Except.ok (g :: gs)

/-- `calculate_analytics` over `csv.DictReader`-produced records, identical
line for line to `calculate_analytics` above except that the text fields may
be Python `None`: `g["result"] == "W"` is `g.result == some "W"` (Python's
`None == "W"` is `False`, exactly the `Option` `==`), likewise for
`home_away`. -/
def calculate_analytics_py (games : List GameRecordPy) : Option Analytics :=
  if games.isEmpty then none
  else
    let total_games : Nat := games.length
    let wins : Nat := (games.filter (fun g => g.result == some "W")).length
    let losses : Nat := total_games - wins
    let total_points_scored : Int := (games.map (fun g => g.points_scored)).sum
    let total_points_allowed : Int := (games.map (fun g => g.points_allowed)).sum
    let total_rushing_yards : Int := (games.map (fun g => g.rushing_yards)).sum
    let total_passing_yards : Int := (games.map (fun g => g.passing_yards)).sum
    let total_turnovers : Int := (games.map (fun g => g.turnovers)).sum
    let home_games := games.filter (fun g => g.home_away == some "home")
    let away_games := games.filter (fun g => g.home_away == some "away")
    let home_wins : Nat := (home_games.filter (fun g => g.result == some "W")).length
    let away_wins : Nat := (away_games.filter (fun g => g.result == some "W")).length
    some
      { summary :=
          { total_games := total_games
            wins := wins
            losses := losses
            win_percentage :=
              if total_games > 0 then pyRound ((wins : ℚ) / (total_games : ℚ) * 100) 1
              else 0 }
        scoring :=
          { total_points_scored := total_points_scored
            total_points_allowed := total_points_allowed
            avg_points_scored := pyRound ((total_points_scored : ℚ) / (total_games : ℚ)) 1
            avg_points_allowed := pyRound ((total_points_allowed : ℚ) / (total_games : ℚ)) 1
            point_differential := total_points_scored - total_points_allowed }
        offense :=
          { total_rushing_yards := total_rushing_yards
            total_passing_yards := total_passing_yards
            total_yards := total_rushing_yards + total_passing_yards
            avg_rushing_yards := pyRound ((total_rushing_yards : ℚ) / (total_games : ℚ)) 1
            avg_passing_yards := pyRound ((total_passing_yards : ℚ) / (total_games : ℚ)) 1
            avg_total_yards :=
              pyRound (((total_rushing_yards + total_passing_yards : Int) : ℚ) / (total_games : ℚ)) 1 }
        turnovers :=
          { total_turnovers := total_turnovers
            avg_turnovers_per_game := pyRound ((total_turnovers : ℚ) / (total_games : ℚ)) 2 }
        home_away :=
          { home_record :=
              toString home_wins ++ "-" ++ toString (home_games.length - home_wins)
            away_record :=
              toString away_wins ++ "-" ++ toString (away_games.length - away_wins) } }

/-- The `all_games` accumulation loop of `run_analytics` at the CSV cell
level: each matched file is its list of non-blank data rows. -/
def readAll_py (files : List (List (List String))) :
    Except ParseError (List GameRecordPy) :=
  match files with
  | [] => Except.ok []
  | f :: fs =>
    match read_game_stats_py f with
    | Except.error e => Except.error e
    | Except.ok gs =>
      match readAll_py fs with
      | Except.error e => Except.error e
      | Except.ok rest => Except.ok (gs ++ rest)

/-- `run_analytics` (analytics.py lines 121-156) at the CSV cell level, with
the same outcome model as `run_analytics` above: an `.error` propagates
before `write_analytics` is reached, so nothing is written; on success the
aggregate is both written and returned. -/
def run_analytics_py (files : List (List (List String))) :
    Except ParseError RunOutcome :=
  if files.isEmpty then Except.ok { returned := none, written := none }
  else
    match readAll_py files with
    | Except.error e => Except.error e
    | Except.ok all_games =>
      let analytics := calculate_analytics_py all_games
      Except.ok { returned := analytics, written := some analytics }

/-- A 9-cell data row: every field supplied except the trailing `result`
cell, which `csv.DictReader` therefore fills with `None`. -/
def cellsMissingResult : List String :=
  ["1", "2024-09-06", "Packers", "home", "34", "29", "144", "278", "1"]

/-- The record the reader builds from `cellsMissingResult`: accepted without
any exception, with `result` holding Python `None`. -/
def recordMissingResult : GameRecordPy :=
  { game_id := 1, date := some "2024-09-06", opponent := some "Packers"
    home_away := some "home", points_scored := 34, points_allowed := 29
    rushing_yards := 144, passing_yards := 278, turnovers := 1, result := none }

/-- An 8-cell data row (spec Scenario D): the `turnovers` and `result` cells
are unsupplied, so `csv.DictReader` fills `turnovers` with `None` and
`int(None)` aborts the run. -/
def cellsMissingTurnovers : List String :=
  ["1", "2024-09-06", "Packers", "home", "34", "29", "144", "278"]

/-- C1: for every non-empty list of game records, `calculate_analytics` sets
`summary.total_games` to the length of the list, `summary.wins` to the count
of records whose `result` field is exactly the literal `"W"` (every other
result value counts as a loss), and `summary.losses` to `total_games - wins`;
consequently `wins + losses = total_games`. -/
theorem calculate_analytics_summary_counts (games : List GameRecord)
    (h : games ≠ []) :
    ∃ a, calculate_analytics games = some a ∧
      a.summary.total_games = games.length ∧
      a.summary.wins = (games.filter (fun g => g.result == "W")).length ∧
      a.summary.losses =
        games.length - (games.filter (fun g => g.result == "W")).length ∧
      a.summary.wins + a.summary.losses = a.summary.total_games := by
  cases games with
  | nil => exact absurd rfl h
  | cons g gs =>
    exact ⟨_, rfl, rfl, rfl, rfl,
      Nat.add_sub_cancel' (List.length_filter_le _ _)⟩

/-- Witness for C1 at a concrete two-game season. -/
theorem calculate_analytics_summary_counts_w :
    ∃ a, calculate_analytics [sampleWin, sampleLoss] = some a ∧
      a.summary.total_games = [sampleWin, sampleLoss].length ∧
      a.summary.wins =
        ([sampleWin, sampleLoss].filter (fun g => g.result == "W")).length ∧
      a.summary.losses =
        [sampleWin, sampleLoss].length -
          ([sampleWin, sampleLoss].filter (fun g => g.result == "W")).length ∧
      a.summary.wins + a.summary.losses = a.summary.total_games :=
  calculate_analytics_summary_counts [sampleWin, sampleLoss]
    (List.cons_ne_nil _ _)

/-- C2: for every non-empty list of game records, `calculate_analytics`
partitions the records by exact literal comparison of `home_away` with
`"home"` and `"away"`; any other value lands in neither partition (yet is
still counted in `total_games` and in `wins`); for each partition the wins
are the records with `result = "W"`, the losses are the partition size minus
the partition wins, the record string is `"{wins}-{losses}"`, and partition
wins plus partition losses equals the partition size. -/
theorem calculate_analytics_home_away_split (games : List GameRecord)
    (h : games ≠ []) :
    ∃ a, calculate_analytics games = some a ∧
      a.home_away.home_record =
        toString ((games.filter (fun g => g.home_away == "home")).filter
            (fun g => g.result == "W")).length ++ "-" ++
          toString ((games.filter (fun g => g.home_away == "home")).length -
            ((games.filter (fun g => g.home_away == "home")).filter
              (fun g => g.result == "W")).length) ∧
      a.home_away.away_record =
        toString ((games.filter (fun g => g.home_away == "away")).filter
            (fun g => g.result == "W")).length ++ "-" ++
          toString ((games.filter (fun g => g.home_away == "away")).length -
            ((games.filter (fun g => g.home_away == "away")).filter
              (fun g => g.result == "W")).length) ∧
      ((games.filter (fun g => g.home_away == "home")).filter
          (fun g => g.result == "W")).length +
        ((games.filter (fun g => g.home_away == "home")).length -
          ((games.filter (fun g => g.home_away == "home")).filter
            (fun g => g.result == "W")).length) =
        (games.filter (fun g => g.home_away == "home")).length ∧
      ((games.filter (fun g => g.home_away == "away")).filter
          (fun g => g.result == "W")).length +
        ((games.filter (fun g => g.home_away == "away")).length -
          ((games.filter (fun g => g.home_away == "away")).filter
            (fun g => g.result == "W")).length) =
        (games.filter (fun g => g.home_away == "away")).length ∧
      (∀ g ∈ games, g.home_away ≠ "home" →
        g ∉ games.filter (fun g => g.home_away == "home")) ∧
      (∀ g ∈ games, g.home_away ≠ "away" →
        g ∉ games.filter (fun g => g.home_away == "away")) ∧
      a.summary.total_games = games.length ∧
      a.summary.wins = (games.filter (fun g => g.result == "W")).length := by
  have hnotmem : ∀ (s : String) (g : GameRecord), g.home_away ≠ s →
      g ∉ games.filter (fun g => g.home_away == s) := by
    intro s g hne hmem
    rw [List.mem_filter] at hmem
    exact hne (by simpa using hmem.2)
  cases games with
  | nil => exact absurd rfl h
  | cons g gs =>
    exact ⟨_, rfl, rfl, rfl,
      Nat.add_sub_cancel' (List.length_filter_le _ _),
      Nat.add_sub_cancel' (List.length_filter_le _ _),
      fun g _ hne => hnotmem "home" g hne,
      fun g _ hne => hnotmem "away" g hne,
      rfl, rfl⟩

/-- Witness for C2 at a concrete two-game season. -/
theorem calculate_analytics_home_away_split_w :
    ∃ a, calculate_analytics [sampleWin, sampleLoss] = some a ∧
      a.home_away.home_record =
        toString (([sampleWin, sampleLoss].filter (fun g => g.home_away == "home")).filter
            (fun g => g.result == "W")).length ++ "-" ++
          toString (([sampleWin, sampleLoss].filter (fun g => g.home_away == "home")).length -
            (([sampleWin, sampleLoss].filter (fun g => g.home_away == "home")).filter
              (fun g => g.result == "W")).length) ∧
      a.home_away.away_record =
        toString (([sampleWin, sampleLoss].filter (fun g => g.home_away == "away")).filter
            (fun g => g.result == "W")).length ++ "-" ++
          toString (([sampleWin, sampleLoss].filter (fun g => g.home_away == "away")).length -
            (([sampleWin, sampleLoss].filter (fun g => g.home_away == "away")).filter
              (fun g => g.result == "W")).length) ∧
      (([sampleWin, sampleLoss].filter (fun g => g.home_away == "home")).filter
          (fun g => g.result == "W")).length +
        (([sampleWin, sampleLoss].filter (fun g => g.home_away == "home")).length -
          (([sampleWin, sampleLoss].filter (fun g => g.home_away == "home")).filter
            (fun g => g.result == "W")).length) =
        ([sampleWin, sampleLoss].filter (fun g => g.home_away == "home")).length ∧
      (([sampleWin, sampleLoss].filter (fun g => g.home_away == "away")).filter
          (fun g => g.result == "W")).length +
        (([sampleWin, sampleLoss].filter (fun g => g.home_away == "away")).length -
          (([sampleWin, sampleLoss].filter (fun g => g.home_away == "away")).filter
            (fun g => g.result == "W")).length) =
        ([sampleWin, sampleLoss].filter (fun g => g.home_away == "away")).length ∧
      (∀ g ∈ [sampleWin, sampleLoss], g.home_away ≠ "home" →
        g ∉ [sampleWin, sampleLoss].filter (fun g => g.home_away == "home")) ∧
      (∀ g ∈ [sampleWin, sampleLoss], g.home_away ≠ "away" →
        g ∉ [sampleWin, sampleLoss].filter (fun g => g.home_away == "away")) ∧
      a.summary.total_games = [sampleWin, sampleLoss].length ∧
      a.summary.wins =
        ([sampleWin, sampleLoss].filter (fun g => g.result == "W")).length :=
  calculate_analytics_home_away_split [sampleWin, sampleLoss]
    (List.cons_ne_nil _ _)

/-- C4: for every non-empty list of game records, `calculate_analytics`
computes the scoring and offense totals as exact integer sums of the per-game
fields, `point_differential` as `total_points_scored - total_points_allowed`
(a signed integer, not rounded), the combined `total_yards` as the sum of the
rushing and passing totals, and each average as the corresponding exact sum
divided by `total_games`, rounded to 1 decimal. -/
theorem calculate_analytics_totals (games : List GameRecord) (h : games ≠ []) :
    ∃ a, calculate_analytics games = some a ∧
      a.scoring.total_points_scored = (games.map (fun g => g.points_scored)).sum ∧
      a.scoring.total_points_allowed = (games.map (fun g => g.points_allowed)).sum ∧
      a.offense.total_rushing_yards = (games.map (fun g => g.rushing_yards)).sum ∧
      a.offense.total_passing_yards = (games.map (fun g => g.passing_yards)).sum ∧
      a.turnovers.total_turnovers = (games.map (fun g => g.turnovers)).sum ∧
      a.scoring.point_differential =
        a.scoring.total_points_scored - a.scoring.total_points_allowed ∧
      a.offense.total_yards =
        a.offense.total_rushing_yards + a.offense.total_passing_yards ∧
      a.scoring.avg_points_scored =
        pyRound ((a.scoring.total_points_scored : ℚ) / (games.length : ℚ)) 1 ∧
      a.scoring.avg_points_allowed =
        pyRound ((a.scoring.total_points_allowed : ℚ) / (games.length : ℚ)) 1 ∧
      a.offense.avg_rushing_yards =
        pyRound ((a.offense.total_rushing_yards : ℚ) / (games.length : ℚ)) 1 ∧
      a.offense.avg_passing_yards =
        pyRound ((a.offense.total_passing_yards : ℚ) / (games.length : ℚ)) 1 ∧
      a.offense.avg_total_yards =
        pyRound ((a.offense.total_yards : ℚ) / (games.length : ℚ)) 1 := by
  cases games with
  | nil => exact absurd rfl h
  | cons g gs =>
    exact ⟨_, rfl, rfl, rfl, rfl, rfl, rfl, rfl, rfl, rfl, rfl, rfl, rfl, rfl⟩

/-- Witness for C4 at a concrete one-game season. -/
theorem calculate_analytics_totals_w :
    ∃ a, calculate_analytics [sampleWin] = some a ∧
      a.scoring.total_points_scored = ([sampleWin].map (fun g => g.points_scored)).sum ∧
      a.scoring.total_points_allowed = ([sampleWin].map (fun g => g.points_allowed)).sum ∧
      a.offense.total_rushing_yards = ([sampleWin].map (fun g => g.rushing_yards)).sum ∧
      a.offense.total_passing_yards = ([sampleWin].map (fun g => g.passing_yards)).sum ∧
      a.turnovers.total_turnovers = ([sampleWin].map (fun g => g.turnovers)).sum ∧
      a.scoring.point_differential =
        a.scoring.total_points_scored - a.scoring.total_points_allowed ∧
      a.offense.total_yards =
        a.offense.total_rushing_yards + a.offense.total_passing_yards ∧
      a.scoring.avg_points_scored =
        pyRound ((a.scoring.total_points_scored : ℚ) / (([sampleWin] : List GameRecord).length : ℚ)) 1 ∧
      a.scoring.avg_points_allowed =
        pyRound ((a.scoring.total_points_allowed : ℚ) / (([sampleWin] : List GameRecord).length : ℚ)) 1 ∧
      a.offense.avg_rushing_yards =
        pyRound ((a.offense.total_rushing_yards : ℚ) / (([sampleWin] : List GameRecord).length : ℚ)) 1 ∧
      a.offense.avg_passing_yards =
        pyRound ((a.offense.total_passing_yards : ℚ) / (([sampleWin] : List GameRecord).length : ℚ)) 1 ∧
      a.offense.avg_total_yards =
        pyRound ((a.offense.total_yards : ℚ) / (([sampleWin] : List GameRecord).length : ℚ)) 1 :=
  calculate_analytics_totals [sampleWin] (List.cons_ne_nil _ _)

/-- C5: for the empty record list `calculate_analytics` returns the
empty-result sentinel (Python's `{}`, modelled as `none`) rather than an
error, and on every non-empty list it likewise completes without an error
condition, returning a populated summary; as a Lean function it is by
construction a side-effect-free pure function of its input list. -/
theorem calculate_analytics_empty_sentinel :
    calculate_analytics [] = none ∧
    ∀ games : List GameRecord, games ≠ [] →
      (calculate_analytics games).isSome = true := by
  refine ⟨rfl, ?_⟩
  intro games h
  cases games with
  | nil => exact absurd rfl h
  | cons g gs => rfl

/-- Witness for C5 at a concrete one-game season. -/
theorem calculate_analytics_empty_sentinel_w :
    (calculate_analytics [sampleWin]).isSome = true :=
  calculate_analytics_empty_sentinel.2 [sampleWin] (List.cons_ne_nil _ _)

/-- C7: on an input directory with no matching CSV file (modelled as the
empty file list), `run_analytics` returns the empty-result sentinel, writes
no output file and raises no error — a no-op completion. -/
theorem run_analytics_no_input_files :
    run_analytics [] = Except.ok { returned := none, written := none } := rfl

/-- C9: the aggregation is deterministic — equal input record lists give
equal outputs — and hence two runs of the pipeline on identical input
produce identical results (so identical serialized output). -/
theorem analytics_deterministic :
    (∀ games1 games2 : List GameRecord, games1 = games2 →
      calculate_analytics games1 = calculate_analytics games2) ∧
    (∀ (files : List RawFile) (r1 r2 : Except ParseError RunOutcome),
      run_analytics files = r1 → run_analytics files = r2 → r1 = r2) := by
  refine ⟨fun a b hab => by rw [hab], fun files r1 r2 h1 h2 => by rw [← h1, ← h2]⟩

/-- Witness for C9 at a concrete input. -/
theorem analytics_deterministic_w :
    calculate_analytics [sampleWin, sampleLoss] =
      calculate_analytics [sampleWin, sampleLoss] :=
  analytics_deterministic.1 [sampleWin, sampleLoss] [sampleWin, sampleLoss] rfl

/-- C10: when at least one CSV file matches but all matched files together
yield zero data rows, `run_analytics` still invokes the writer: the output
file is written and contains the serialized empty sentinel, and the empty
sentinel is returned — in contrast to the no-matching-files case `[]`, where
nothing is written. -/
theorem run_analytics_writes_empty_report (files : List RawFile)
    (hne : files ≠ []) (hrows : ∀ f ∈ files, f = ([] : RawFile)) :
    run_analytics files = Except.ok { returned := none, written := some none } := by
  have hall : ∀ fs : List RawFile, (∀ f ∈ fs, f = ([] : RawFile)) →
      readAll fs = Except.ok [] := by
    intro fs
    induction fs with
    | nil => intro _; rfl
    | cons f fs ih =>
      intro hr
      rw [readAll, hr f (List.mem_cons_self f fs)]
      simp [read_game_stats,
        ih (fun x hx => hr x (List.mem_cons_of_mem f hx))]
  cases files with
  | nil => exact absurd rfl hne
  | cons f fs =>
    simp [run_analytics, hall (f :: fs) hrows, calculate_analytics]

/-- Witness for C10 at one matched file with zero data rows. -/
theorem run_analytics_writes_empty_report_w :
    run_analytics [([] : RawFile)] =
      Except.ok { returned := none, written := some none } :=
  run_analytics_writes_empty_report [([] : RawFile)] (List.cons_ne_nil _ _)
    (by simp)

/-- C3: for every non-empty list of game records, `calculate_analytics`
computes `win_percentage` as `round(wins / total_games * 100, 1)` and
`avg_turnovers_per_game` as `round(total_turnovers / total_games, 2)` — the
only 2-decimal field, every other average being rounded to 1 decimal — and
on the three-record input with results `["W", "L", "W"]`, all with
`home_away = "home"`, the output has `wins = 2`, `losses = 1`,
`win_percentage = 66.7` and `home_record = "2-1"`. -/
theorem calculate_analytics_rounded_averages :
    (∀ games : List GameRecord, games ≠ [] →
      ∃ a, calculate_analytics games = some a ∧
        a.summary.win_percentage =
          pyRound (((games.filter (fun g => g.result == "W")).length : ℚ) /
            (games.length : ℚ) * 100) 1 ∧
        a.turnovers.avg_turnovers_per_game =
          pyRound ((((games.map (fun g => g.turnovers)).sum : Int) : ℚ) /
            (games.length : ℚ)) 2 ∧
        a.scoring.avg_points_scored =
          pyRound ((((games.map (fun g => g.points_scored)).sum : Int) : ℚ) /
            (games.length : ℚ)) 1 ∧
        a.scoring.avg_points_allowed =
          pyRound ((((games.map (fun g => g.points_allowed)).sum : Int) : ℚ) /
            (games.length : ℚ)) 1 ∧
        a.offense.avg_rushing_yards =
          pyRound ((((games.map (fun g => g.rushing_yards)).sum : Int) : ℚ) /
            (games.length : ℚ)) 1 ∧
        a.offense.avg_passing_yards =
          pyRound ((((games.map (fun g => g.passing_yards)).sum : Int) : ℚ) /
            (games.length : ℚ)) 1 ∧
        a.offense.avg_total_yards =
          pyRound ((((games.map (fun g => g.rushing_yards)).sum +
            (games.map (fun g => g.passing_yards)).sum : Int) : ℚ) /
            (games.length : ℚ)) 1) ∧
    (∀ g1 g2 g3 : GameRecord,
      g1.result = "W" → g2.result = "L" → g3.result = "W" →
      g1.home_away = "home" → g2.home_away = "home" → g3.home_away = "home" →
      ∃ a, calculate_analytics [g1, g2, g3] = some a ∧
        a.summary.wins = 2 ∧ a.summary.losses = 1 ∧
        a.summary.win_percentage = 667 / 10 ∧
        a.home_away.home_record = "2-1") := by
  constructor
  · intro games h
    cases games with
    | nil => exact absurd rfl h
    | cons g gs =>
      refine ⟨_, rfl, ?_, rfl, rfl, rfl, rfl, rfl, rfl⟩
      show (if (g :: gs).length > 0 then
          pyRound ((((g :: gs).filter (fun g => g.result == "W")).length : ℚ) /
            (((g :: gs) : List GameRecord).length : ℚ) * 100) 1
        else 0) = _
      have hpos : (g :: gs).length > 0 := by simp
      rw [if_pos hpos]
  · intro g1 g2 g3 hr1 hr2 hr3 hh1 hh2 hh3
    have hw : ([g1, g2, g3].filter (fun g => g.result == "W")).length = 2 := by
      simp [List.filter_cons, hr1, hr2, hr3]
    have hhome : [g1, g2, g3].filter (fun g => g.home_away == "home") =
        [g1, g2, g3] := by
      simp [List.filter_cons, hh1, hh2, hh3]
    refine ⟨_, rfl, hw, ?_, ?_, ?_⟩
    · show ([g1, g2, g3] : List GameRecord).length -
        ([g1, g2, g3].filter (fun g => g.result == "W")).length = 1
      rw [hw]
      rfl
    · show (if ([g1, g2, g3] : List GameRecord).length > 0 then
          pyRound (((([g1, g2, g3].filter (fun g => g.result == "W")).length : Nat) : ℚ) /
            ((([g1, g2, g3] : List GameRecord).length : Nat) : ℚ) * 100) 1
        else 0) = 667 / 10
      rw [hw]
      norm_num [pyRound, roundHalfEven]
    · show toString (([g1, g2, g3].filter (fun g => g.home_away == "home")).filter
            (fun g => g.result == "W")).length ++ "-" ++
          toString (([g1, g2, g3].filter (fun g => g.home_away == "home")).length -
            (([g1, g2, g3].filter (fun g => g.home_away == "home")).filter
              (fun g => g.result == "W")).length) = "2-1"
      rw [hhome, hw]
      show toString 2 ++ "-" ++ toString (3 - 2 : Nat) = "2-1"
      rfl

/-- Witness for C3: both parts instantiated at a concrete season; the second
at the exact three-record scenario. -/
theorem calculate_analytics_rounded_averages_w :
    ∃ a, calculate_analytics [sampleWin, sampleHomeLoss, sampleWin] = some a ∧
      a.summary.wins = 2 ∧ a.summary.losses = 1 ∧
      a.summary.win_percentage = 667 / 10 ∧
      a.home_away.home_record = "2-1" :=
  calculate_analytics_rounded_averages.2 sampleWin sampleHomeLoss sampleWin
    rfl rfl rfl rfl rfl rfl

/-- C8: on success the reader's output preserves input row order exactly —
record `i` is the parse of data row `i` (stated as a pointwise `Forall₂`
correspondence) — and the orchestrator concatenates the per-file record
lists in file-listing order with no re-sorting, passing the concatenation
(`flatten`) to the aggregator, whose result it returns and writes. -/
theorem pipeline_preserves_order :
    (∀ (rows : RawFile) (gs : List GameRecord),
      read_game_stats rows = Except.ok gs →
      List.Forall₂ (fun r g => parseRow r = Except.ok g) rows gs) ∧
    (∀ (files : List RawFile) (gss : List (List GameRecord)),
      List.Forall₂ (fun f g => read_game_stats f = Except.ok g) files gss →
      readAll files = Except.ok gss.flatten ∧
      (files ≠ [] →
        run_analytics files =
          Except.ok { returned := calculate_analytics gss.flatten
                      written := some (calculate_analytics gss.flatten) })) := by
  constructor
  · intro rows
    induction rows with
    | nil =>
      intro gs h
      simp only [read_game_stats, Except.ok.injEq] at h
      subst h
      exact List.Forall₂.nil
    | cons r rs ih =>
      intro gs h
      cases hpr : parseRow r with
      | error e =>
        rw [read_game_stats, hpr] at h
        exact Except.noConfusion h
      | ok g =>
        cases hrs : read_game_stats rs with
        | error e =>
          rw [read_game_stats, hpr, hrs] at h
          exact Except.noConfusion h
        | ok gs' =>
          rw [read_game_stats, hpr, hrs] at h
          injection h with h
          subst h
          exact List.Forall₂.cons hpr (ih gs' hrs)
  · intro files gss h
    induction h with
    | nil => exact ⟨rfl, fun hne => absurd rfl hne⟩
    | @cons f g fs gss' hfg htail ih =>
      have hra : readAll (f :: fs) = Except.ok ((g :: gss').flatten) := by
        rw [readAll, hfg, ih.1, List.flatten_cons]
      refine ⟨hra, fun _ => ?_⟩
      rw [run_analytics]
      simp only [List.isEmpty_cons, Bool.false_eq_true, if_false, hra]

/-- Witness for C8 at one file with one well-formed row. -/
theorem pipeline_preserves_order_w :
    List.Forall₂ (fun r g => parseRow r = Except.ok g) [sampleRow] [sampleWin] :=
  pipeline_preserves_order.1 [sampleRow] [sampleWin] rfl

/-- A `DictReader` row whose integer field was left unsupplied (filled with
`None`) makes `parseRowPy` abort: `int(None)` raises. -/
lemma parseRowPy_error_of_none (row : RowPy) (f : String)
    (hf : f ∈ intFields) (hnone : List.lookup f row = some none) :
    ∃ e, parseRowPy row = Except.error e := by
  have hf' : f = "game_id" ∨ f = "points_scored" ∨ f = "points_allowed" ∨
      f = "rushing_yards" ∨ f = "passing_yards" ∨ f = "turnovers" := by
    simpa [intFields] using hf
  rcases hf' with rfl | rfl | rfl | rfl | rfl | rfl <;>
    · unfold parseRowPy
      repeat' split
      all_goals
        first
          | exact ⟨_, rfl⟩
          | simp_all only [getFieldPy, getIntFieldPy, hnone, reduceCtorEq]

/-- A `DictReader` row whose integer field holds a string `int()` rejects
makes `parseRowPy` abort: `int(v)` raises. -/
lemma parseRowPy_error_of_badInt (row : RowPy) (f : String) (v : String)
    (hf : f ∈ intFields) (hsome : List.lookup f row = some (some v))
    (hbad : pyInt? v = none) :
    ∃ e, parseRowPy row = Except.error e := by
  have hf' : f = "game_id" ∨ f = "points_scored" ∨ f = "points_allowed" ∨
      f = "rushing_yards" ∨ f = "passing_yards" ∨ f = "turnovers" := by
    simpa [intFields] using hf
  rcases hf' with rfl | rfl | rfl | rfl | rfl | rfl <;>
    · unfold parseRowPy
      repeat' split
      all_goals
        first
          | exact ⟨_, rfl⟩
          | simp_all only [getFieldPy, getIntFieldPy, hsome, hbad, reduceCtorEq]

/-- A failing data row anywhere in a file makes `read_game_stats_py`
abort. -/
lemma read_game_stats_py_error_of_mem {rows : List (List String)}
    {cells : List String} (hmem : cells ∈ rows)
    (herr : ∃ e, parseRowPy (dictReaderRow cells) = Except.error e) :
    ∃ e, read_game_stats_py rows = Except.error e := by
  induction rows with
  | nil => exact absurd hmem (List.not_mem_nil cells)
  | cons r rs ih =>
    cases hpr : parseRowPy (dictReaderRow r) with
    | error e => exact ⟨e, by simp [read_game_stats_py, hpr]⟩
    | ok g =>
      have hmem' : cells ∈ rs := by
        rcases List.mem_cons.mp hmem with h | h
        · exfalso
          obtain ⟨e, he⟩ := herr
          rw [h] at he
          rw [he] at hpr
          exact Except.noConfusion hpr
        · exact h
      obtain ⟨e, he⟩ := ih hmem'
      exact ⟨e, by simp [read_game_stats_py, hpr, he]⟩

/-- A failing file anywhere in the matched list makes the cell-level read
loop abort. -/
lemma readAll_py_error_of_mem {files : List (List (List String))}
    {rows : List (List String)} (hmem : rows ∈ files)
    (herr : ∃ e, read_game_stats_py rows = Except.error e) :
    ∃ e, readAll_py files = Except.error e := by
  induction files with
  | nil => exact absurd hmem (List.not_mem_nil rows)
  | cons f fs ih =>
    cases hrf : read_game_stats_py f with
    | error e => exact ⟨e, by simp [readAll_py, hrf]⟩
    | ok gs =>
      have hmem' : rows ∈ fs := by
        rcases List.mem_cons.mp hmem with h | h
        · exfalso
          obtain ⟨e, he⟩ := herr
          rw [h] at he
          rw [he] at hrf
          exact Except.noConfusion hrf
        · exact h
      obtain ⟨e, he⟩ := ih hmem'
      cases hra : readAll_py fs with
      | error e2 => exact ⟨e2, by simp [readAll_py, hrf, hra]⟩
      | ok rest => rw [hra] at he; exact Except.noConfusion he

/-- Counterexample to C6 as stated: under `csv.DictReader` a data row that
supplies every cell except the trailing `result` is a row missing a required
field (its `result` value is `None`), yet the reader raises nothing — the
record is accepted with `result = None` — and the run completes and writes
an output file. -/
theorem reader_accepts_row_missing_result :
    List.lookup "result" (dictReaderRow cellsMissingResult) = some none ∧
    read_game_stats_py [cellsMissingResult] =
      Except.ok [recordMissingResult] ∧
    recordMissingResult.result = none ∧
    (∃ o, run_analytics_py [[cellsMissingResult]] = Except.ok o ∧
      o.written ≠ none) := by
  refine ⟨rfl, rfl, rfl, ?_⟩
  have h2 : read_game_stats_py [cellsMissingResult] =
      Except.ok [recordMissingResult] := rfl
  have hra : readAll_py [[cellsMissingResult]] =
      Except.ok [recordMissingResult] := by
    simp [readAll_py, h2]
  have hrun : run_analytics_py [[cellsMissingResult]] =
      Except.ok { returned := calculate_analytics_py [recordMissingResult]
                  written := some (calculate_analytics_py [recordMissingResult]) } := by
    simp [run_analytics_py, hra]
  exact ⟨_, hrun, by simp⟩

/-- C6 (amended): for every input whose non-blank data rows are read under
the fixed ten-column header, any row that leaves one of the six integer
fields unsupplied (so the CSV layer fills it with `None` and `int(None)`
raises) or supplies it as an ASCII string that is not a base-10 integer
(`int(v)` raises) makes the reader fail with an error that aborts the whole
run: no partial record list is returned, and `run_analytics` propagates the
error before the writer is reached, so no output file is produced.  A row
missing only the trailing `result` field is not caught (see the
counterexample above). -/
theorem reader_aborts_on_bad_int_field (files : List (List (List String)))
    (rows : List (List String)) (cells : List String)
    (hfile : rows ∈ files) (hrow : cells ∈ rows) (_hcells : cells ≠ [])
    (hbad : (∃ f ∈ intFields,
        List.lookup f (dictReaderRow cells) = some none) ∨
      (∃ f ∈ intFields, ∃ v,
        List.lookup f (dictReaderRow cells) = some (some v) ∧
        pyInt? v = none ∧ v.data.all isAsciiChar = true)) :
    (∃ e, read_game_stats_py rows = Except.error e) ∧
    (∃ e, run_analytics_py files = Except.error e) := by
  have hpe : ∃ e, parseRowPy (dictReaderRow cells) = Except.error e := by
    rcases hbad with ⟨f, hf, hnone⟩ | ⟨f, hf, v, hsome, hbadv, _⟩
    · exact parseRowPy_error_of_none (dictReaderRow cells) f hf hnone
    · exact parseRowPy_error_of_badInt (dictReaderRow cells) f v hf hsome hbadv
  have hre := read_game_stats_py_error_of_mem hrow hpe
  refine ⟨hre, ?_⟩
  obtain ⟨e, he⟩ := readAll_py_error_of_mem hfile hre
  have hne : (files.isEmpty : Bool) = false := by
    cases files with
    | nil => exact absurd hfile (List.not_mem_nil rows)
    | cons f fs => rfl
  exact ⟨e, by simp [run_analytics_py, hne, he]⟩

/-- Witness for the amended C6 at spec Scenario D: one file whose single
8-cell data row leaves the `turnovers` cell unsupplied. -/
theorem reader_aborts_on_bad_int_field_w :
    (∃ e, read_game_stats_py [cellsMissingTurnovers] = Except.error e) ∧
    (∃ e, run_analytics_py [[cellsMissingTurnovers]] = Except.error e) :=
  reader_aborts_on_bad_int_field [[cellsMissingTurnovers]]
    [cellsMissingTurnovers] cellsMissingTurnovers
    (List.mem_cons_self _ _) (List.mem_cons_self _ _)
    (List.cons_ne_nil _ _)
    (Or.inl ⟨"turnovers", by simp [intFields], rfl⟩)
